import Mathlib

/-!
Verification development for the HelloWorldLightningWebComponent2 repository:
a Salesforce DX project with an Apex controller (`HelloWorldController`), a
Lightning Web Component (`HelloWorld`), and three GitHub Actions workflows.
The Apex controller and LWC component are embedded shallowly below; platform
library functions used by the controller (`String.isBlank`,
`String.escapeSingleQuotes`, `DateTime.format`) are modelled from their
documented Salesforce semantics, since their implementations live in the
vendor platform, not in this repository.
-/

namespace HelloWorldRepo

/-! ## Apex platform string helpers

`String.isBlank(s)` in Apex returns true when `s` is null, empty, or contains
only whitespace characters.  A null-able Apex `String` argument is embedded as
`Option String`. -/

/-- Apex `String.isBlank` on a possibly-null string: true for null, empty, or
whitespace-only input. -/
def apexIsBlank : Option String → Bool
  | none => true
  | some s => s.data.all Char.isWhitespace

/-- Apex `String.escapeSingleQuotes`: returns the string with the escape
character `\` added before each single-quote character; all other characters
are passed through unchanged.  (Platform library function, modelled from its
documented behaviour.) -/
def escapeSingleQuotes (s : String) : String :=
  String.mk (s.data.flatMap (fun c => if c = '\'' then ['\\', '\''] else [c]))

/-! ## HelloWorldController

Source (Apex):
```
public static String getGreeting(String name) {
  if (String.isBlank(name)) {
    return 'Hello, World!';
  }
  return 'Hello, ' + String.escapeSingleQuotes(name) + '!';
}
```
-/

/-- `HelloWorldController.getGreeting`, with the null-able Apex `String name`
parameter embedded as `Option String`. -/
def getGreeting (name : Option String) : String :=
  if apexIsBlank name then "Hello, World!"
  else "Hello, " ++ escapeSingleQuotes (name.getD "") ++ "!"

/-- A string is quote-free when it contains no single-quote character. -/
def quoteFree (s : String) : Prop := '\'' ∉ s.data

instance (s : String) : Decidable (quoteFree s) := by
  unfold quoteFree; infer_instance

theorem flatMap_escape_of_not_mem (l : List Char) (h : '\'' ∉ l) :
    l.flatMap (fun c => if c = '\'' then ['\\', '\''] else [c]) = l := by
  induction l with
  | nil => rfl
  | cons c cs ih =>
    simp only [List.mem_cons, not_or] at h
    simp [List.flatMap_cons, ih h.2, Ne.symm h.1]

theorem escapeSingleQuotes_of_quoteFree (s : String) (h : quoteFree s) :
    escapeSingleQuotes s = s := by
  unfold escapeSingleQuotes
  rw [flatMap_escape_of_not_mem s.data h]

/-- C1: For every name input that is null, empty, or blank (whitespace-only),
`HelloWorldController.getGreeting` returns exactly the string
`"Hello, World!"`. -/
theorem getGreeting_blank (name : Option String)
    (h : apexIsBlank name = true) :
    getGreeting name = "Hello, World!" := by
  unfold getGreeting
  rw [h]
  rfl

theorem getGreeting_blank_witness :
    apexIsBlank (some "  ") = true ∧ apexIsBlank none = true ∧
      getGreeting (some "  ") = "Hello, World!" ∧
      getGreeting none = "Hello, World!" :=
  ⟨by decide, by decide, getGreeting_blank (some "  ") (by decide),
    getGreeting_blank none (by decide)⟩

/-- C2: For every non-blank name input, `HelloWorldController.getGreeting`
returns `"Hello, " ++ sanitized(name) ++ "!"`, where the sanitizer is the
platform escape function; being a total function of its argument, it raises no
error on any input. -/
theorem getGreeting_nonblank (s : String)
    (h : apexIsBlank (some s) = false) :
    getGreeting (some s) = "Hello, " ++ escapeSingleQuotes s ++ "!" := by
  unfold getGreeting
  rw [h]
  rfl

theorem getGreeting_nonblank_witness :
    apexIsBlank (some "O'Neil") = false ∧
      getGreeting (some "O'Neil") = "Hello, " ++ escapeSingleQuotes "O'Neil" ++ "!" :=
  ⟨by decide, getGreeting_nonblank "O'Neil" (by decide)⟩

/-- C3: For every non-blank name input `n` containing no character requiring
escaping (no single quote), `getGreeting` returns `"Hello, " ++ n ++ "!"` with
`n` embedded verbatim; in particular
`getGreeting "Salesforce" = "Hello, Salesforce!"`. -/
theorem getGreeting_verbatim (s : String)
    (hb : apexIsBlank (some s) = false) (hq : quoteFree s) :
    getGreeting (some s) = "Hello, " ++ s ++ "!" := by
  rw [getGreeting_nonblank s hb, escapeSingleQuotes_of_quoteFree s hq]

theorem getGreeting_verbatim_witness :
    apexIsBlank (some "Salesforce") = false ∧ quoteFree "Salesforce" ∧
      getGreeting (some "Salesforce") = "Hello, Salesforce!" :=
  ⟨by decide, by decide, getGreeting_verbatim "Salesforce" (by decide) (by decide)⟩

/-! ## getCurrentDateTime

Source (Apex):
```
public static String getCurrentDateTime() {
  return DateTime.now().format('EEEE, MMMM dd, yyyy \'at\' h:mm a');
}
```
The clock value read by `DateTime.now()` is embedded as an explicit
`ApexDateTime` argument; the platform `format` with the fixed pattern above is
modelled field by field: `EEEE` full day-of-week name, `MMMM` full month name,
`dd` zero-padded day, `yyyy` year, `'at'` the literal `at`, `h` clock hour
1..12, `mm` zero-padded minute, `a` the meridiem marker. -/

/-- A clock value as observed by the Apex `DateTime` formatter: calendar
fields plus the day of week (0 = Sunday .. 6 = Saturday). -/
structure ApexDateTime where
  year : Nat
  month : Nat
  day : Nat
  hour : Nat
  minute : Nat
  dayOfWeek : Nat
deriving DecidableEq, Repr

/-- Full day-of-week names used by the `EEEE` pattern letter. -/
def dayOfWeekName (d : Nat) : String :=
  (["Sunday", "Monday", "Tuesday", "Wednesday", "Thursday", "Friday",
    "Saturday"].getD d "Saturday")

/-- Full month names used by the `MMMM` pattern letter (month 1 = January). -/
def monthName (m : Nat) : String :=
  (["January", "February", "March", "April", "May", "June", "July", "August",
    "September", "October", "November", "December"].getD (m - 1) "December")

/-- Two-digit zero padding used by the `dd` and `mm` pattern letters. -/
def pad2 (n : Nat) : String :=
  if n < 10 then "0" ++ toString n else toString n

/-- The `h` pattern letter: clock hour in the range 1..12. -/
def clockHour (h : Nat) : Nat :=
  if h % 12 = 0 then 12 else h % 12

/-- The `a` pattern letter: the meridiem marker. -/
def meridiem (h : Nat) : String :=
  if h % 24 < 12 then "AM" else "PM"

/-- The platform `DateTime.format` applied to the controller's fixed pattern,
`EEEE, MMMM dd, yyyy 'at' h:mm a`. -/
def formatDateTime (dt : ApexDateTime) : String :=
  dayOfWeekName dt.dayOfWeek ++ ", " ++ monthName dt.month ++ " " ++
    pad2 dt.day ++ ", " ++ toString dt.year ++ " at " ++
    toString (clockHour dt.hour) ++ ":" ++ pad2 dt.minute ++ " " ++
    meridiem dt.hour

/-- `HelloWorldController.getCurrentDateTime`, with the clock value read by
`DateTime.now()` made an explicit argument. -/
def getCurrentDateTime (now : ApexDateTime) : String :=
  formatDateTime now

/-- C4: For every current clock value, `getCurrentDateTime` returns a
non-empty string containing the literal substring `"at"` — the fixed format
pattern day-of-week, month, day, year, `at`, time with meridiem. -/
theorem getCurrentDateTime_nonempty_contains_at (dt : ApexDateTime) :
    getCurrentDateTime dt ≠ "" ∧
      ∃ p q, getCurrentDateTime dt = p ++ "at" ++ q := by
  have hdec : getCurrentDateTime dt =
      (dayOfWeekName dt.dayOfWeek ++ ", " ++ monthName dt.month ++ " " ++
        pad2 dt.day ++ ", " ++ toString dt.year ++ " ") ++ "at" ++
      (" " ++ toString (clockHour dt.hour) ++ ":" ++ pad2 dt.minute ++ " " ++
        meridiem dt.hour) := by
    unfold getCurrentDateTime formatDateTime
    have hat : (" at " : String) = " " ++ "at" ++ " " := rfl
    rw [hat]
    simp only [String.append_assoc]
  refine ⟨?_, _, _, hdec⟩
  intro hnil
  rw [hnil] at hdec
  have hlen := congrArg String.length hdec
  have hat2 : ("at" : String).length = 2 := rfl
  simp only [String.length_append, hat2] at hlen
  simp only [String.length_empty] at hlen
  omega

/-! ## The HelloWorld Lightning Web Component

Source (JavaScript):
```
@track greeting = "Hello, World!";
@track currentDateTime = "";
@track userName = "";

handleNameChange(event) { this.userName = event.target.value; }

async handleGetGreeting() {
  try { this.greeting = await getGreeting({ name: this.userName }); }
  catch (error) { this.greeting = "Error: " + (error.body?.message || error.message); }
}

async loadCurrentDateTime() {
  try { this.currentDateTime = await getCurrentDateTime(); }
  catch (error) { this.currentDateTime = "Error loading date/time"; }
}
```
The tracked fields form the component state; each handler is embedded as a
state transformer taking the outcome of the awaited backend call as an
explicit `Except` argument.  A JavaScript value that may be `undefined` is
embedded as an `Option`; `a || b` on such values and string conversion keep
their JavaScript semantics (`""` and `undefined` are falsy; `undefined`
renders as `"undefined"` under string concatenation). -/

/-- The `body` of a rejection reason as the component reads it:
`body.message` may be absent. -/
structure ErrorBody where
  message : Option String
deriving DecidableEq, Repr

/-- A rejection reason of a backend call: `body` and `message` may each be
absent. -/
structure ApexCallError where
  body : Option ErrorBody
  message : Option String
deriving DecidableEq, Repr

/-- JavaScript `a || b` on possibly-undefined strings: `undefined` and `""`
are falsy. -/
def jsOr (a b : Option String) : Option String :=
  match a with
  | none => b
  | some s => if s = "" then b else some s

/-- JavaScript string conversion under `+`: `undefined` renders as
`"undefined"`. -/
def jsToString : Option String → String
  | none => "undefined"
  | some s => s

/-- The failure detail the component displays: `error.body?.message ||
error.message`. -/
def errorDetail (e : ApexCallError) : Option String :=
  jsOr (e.body.bind ErrorBody.message) e.message

/-- The tracked fields of the `HelloWorld` component. -/
structure HelloWorldState where
  greeting : String
  currentDateTime : String
  userName : String
deriving DecidableEq, Repr

/-- The initial values of the tracked fields. -/
def initialState : HelloWorldState :=
  { greeting := "Hello, World!", currentDateTime := "", userName := "" }

/-- `handleNameChange`: store the input value in `userName`. -/
def handleNameChange (st : HelloWorldState) (value : String) : HelloWorldState :=
  { st with userName := value }

/-- `handleGetGreeting`, given the settled outcome of the awaited
`getGreeting` call. -/
def handleGetGreeting (st : HelloWorldState)
    (outcome : Except ApexCallError String) : HelloWorldState :=
  match outcome with
  | Except.ok g => { st with greeting := g }
  | Except.error e =>
      { st with greeting := "Error: " ++ jsToString (errorDetail e) }

/-- `loadCurrentDateTime`, given the settled outcome of the awaited
`getCurrentDateTime` call. -/
def loadCurrentDateTime (st : HelloWorldState)
    (outcome : Except ApexCallError String) : HelloWorldState :=
  match outcome with
  | Except.ok s => { st with currentDateTime := s }
  | Except.error _ => { st with currentDateTime := "Error loading date/time" }

/-- C5: On every rejection of the backend `getGreeting` call the component
sets the greeting to `"Error: "` followed by the failure detail —
`error.body.message` when present and non-empty, else `error.message`; a
rejection carrying body message `"Something went wrong"` displays exactly
`"Error: Something went wrong"`. -/
theorem handleGetGreeting_error (st : HelloWorldState) (e : ApexCallError)
    (b : ErrorBody) (m : String) :
    (handleGetGreeting st (Except.error e)).greeting =
        "Error: " ++ jsToString (errorDetail e) ∧
      (e.body = some b → b.message = some m → m ≠ "" →
        (handleGetGreeting st (Except.error e)).greeting = "Error: " ++ m) ∧
      (e.body.bind ErrorBody.message = none →
        (handleGetGreeting st (Except.error e)).greeting =
          "Error: " ++ jsToString e.message) ∧
      (handleGetGreeting st (Except.error
          { body := some { message := some "Something went wrong" },
            message := none })).greeting = "Error: Something went wrong" := by
  refine ⟨rfl, ?_, ?_, ?_⟩
  · intro hb hm hne
    simp [handleGetGreeting, errorDetail, jsOr, jsToString, hb, hm, hne]
  · intro hnone
    simp [handleGetGreeting, errorDetail, jsOr, hnone]
  · rfl

theorem handleGetGreeting_error_witness :
    (handleGetGreeting initialState (Except.error
        { body := some { message := some "Something went wrong" },
          message := some "other" })).greeting =
      "Error: Something went wrong" :=
  ((handleGetGreeting_error initialState
      { body := some { message := some "Something went wrong" },
        message := some "other" }
      { message := some "Something went wrong" } "Something went wrong").2.1
    rfl rfl (by decide))

/-- C6: On every rejection of the backend `getCurrentDateTime` call, whatever
the rejection reason holds, the component sets the date/time text to a string
containing `"Error loading date/time"` (in fact to exactly that string). -/
theorem loadCurrentDateTime_error (st : HelloWorldState) (e : ApexCallError) :
    (loadCurrentDateTime st (Except.error e)).currentDateTime =
        "Error loading date/time" ∧
      ∃ p q, (loadCurrentDateTime st (Except.error e)).currentDateTime =
        p ++ "Error loading date/time" ++ q :=
  ⟨rfl, "", "", rfl⟩

/-- C10: Each operation writes exactly its own field and leaves the other two
tracked fields unchanged: `handleGetGreeting` touches only `greeting` (on
success and on error), `loadCurrentDateTime` touches only `currentDateTime`
(on success and on error), and `handleNameChange` touches only `userName`. -/
theorem component_frame (st : HelloWorldState)
    (outcome : Except ApexCallError String) (value : String) :
    (handleGetGreeting st outcome).currentDateTime = st.currentDateTime ∧
      (handleGetGreeting st outcome).userName = st.userName ∧
      (loadCurrentDateTime st outcome).greeting = st.greeting ∧
      (loadCurrentDateTime st outcome).userName = st.userName ∧
      (handleNameChange st value).greeting = st.greeting ∧
      (handleNameChange st value).currentDateTime = st.currentDateTime ∧
      (handleNameChange st value).userName = value := by
  cases outcome with
  | ok g => exact ⟨rfl, rfl, rfl, rfl, rfl, rfl, rfl⟩
  | error e => exact ⟨rfl, rfl, rfl, rfl, rfl, rfl, rfl⟩

/-! ## Effect model for the controller

To settle purity claims, each controller entry point is run against an
explicit world holding the only ambient state either method touches: the
current clock read by `DateTime.now()`.  Each run returns its result together
with the world after the call; the embedding is read off the Apex source,
which reads the clock in `getCurrentDateTime` and mutates nothing in either
method. -/

/-- The ambient state visible to the controller: the current clock. -/
structure World where
  now : ApexDateTime
deriving DecidableEq, Repr

/-- Running `HelloWorldController.getGreeting` in a world: the Apex body
touches no ambient state. -/
def getGreetingRun (w : World) (name : Option String) : String × World :=
  (getGreeting name, w)

/-- Running `HelloWorldController.getCurrentDateTime` in a world: the Apex
body reads the clock via `DateTime.now()` and modifies nothing. -/
def getCurrentDateTimeRun (w : World) : String × World :=
  (getCurrentDateTime w.now, w)

/-- C7 counterexample: `getCurrentDateTime` takes no arguments, yet two
invocations of `getCurrentDateTimeRun` (differing only in the ambient clock
it reads) return different strings, so the claim that both controller methods
return the same result on every pair of same-argument invocations and read no
outside state is false. -/
theorem getCurrentDateTime_reads_clock :
    (getCurrentDateTimeRun ⟨⟨2025, 6, 4, 10, 30, 3⟩⟩).1 ≠
      (getCurrentDateTimeRun ⟨⟨2025, 6, 5, 10, 30, 4⟩⟩).1 := by
  decide

/-- C7 amended: `getGreeting` is pure — its result depends only on the name
argument and it leaves the world untouched; `getCurrentDateTime` also leaves
the world untouched and is deterministic in the clock value it reads, but it
does read the clock. -/
theorem controller_purity (w w' : World) (name : Option String) :
    (getGreetingRun w name).1 = (getGreetingRun w' name).1 ∧
      (getGreetingRun w name).2 = w ∧
      (getCurrentDateTimeRun w).2 = w ∧
      (w.now = w'.now →
        (getCurrentDateTimeRun w).1 = (getCurrentDateTimeRun w').1) := by
  refine ⟨rfl, rfl, rfl, fun h => ?_⟩
  simp [getCurrentDateTimeRun, h]

theorem controller_purity_witness :
    (getCurrentDateTimeRun ⟨⟨2025, 6, 4, 10, 30, 3⟩⟩).1 =
      (getCurrentDateTimeRun ⟨⟨2025, 6, 4, 10, 30, 3⟩⟩).1 :=
  (controller_purity ⟨⟨2025, 6, 4, 10, 30, 3⟩⟩ ⟨⟨2025, 6, 4, 10, 30, 3⟩⟩
    none).2.2.2 rfl

/-- C9: the sanitizer applied by `getGreeting` is exactly single-quote
escaping — a leading single quote is replaced by backslash-then-quote and any
other leading character passes through unchanged, character by character;
hence every quote-free name passes through verbatim, HTML-significant
characters included. -/
theorem sanitizer_single_quote_only (c : Char) (cs : List Char) (s : String) :
    (escapeSingleQuotes (String.mk (c :: cs)) =
        (if c = '\'' then String.mk ['\\', '\'']
          else String.mk [c]) ++ escapeSingleQuotes (String.mk cs)) ∧
      (quoteFree s → escapeSingleQuotes s = s) ∧
      escapeSingleQuotes (String.mk ['a', '\'', 'b']) =
        String.mk ['a', '\\', '\'', 'b'] ∧
      getGreeting (some "<script>") = "Hello, <script>!" := by
  refine ⟨?_, escapeSingleQuotes_of_quoteFree s, by decide, by decide⟩
  by_cases hc : c = '\''
  · simp only [escapeSingleQuotes, hc, List.flatMap_cons, if_pos]
    rfl
  · simp only [escapeSingleQuotes, List.flatMap_cons, if_neg hc]
    rfl

theorem sanitizer_single_quote_only_witness :
    escapeSingleQuotes (String.mk ['x', 'y']) = String.mk ['x', 'y'] :=
  (sanitizer_single_quote_only 'x' ['y'] (String.mk ['x', 'y'])).2.1
    (by decide)

/-! ## GitHub Actions workflows

The three workflow files declare their triggers and a single job holding a
fixed sequential step list.  The trigger blocks and step names are transcribed
from the YAML; the GitHub trigger semantics (event type, action/branch
filters, path filter with the `dir/**` glob) is modelled over them. -/

/-- The `on:` block of a workflow file. -/
inductive TriggerDef where
  | pullRequest (types branches paths : List String)
  | push (branches paths : List String)
deriving DecidableEq, Repr

/-- A workflow file: its name, trigger block, and its single job's step list
(step names in order; the unnamed first step is its `uses` action). -/
structure Workflow where
  name : String
  trigger : TriggerDef
  steps : List String
deriving DecidableEq, Repr

/-- Path-filter glob matching: a pattern ending in `/**` matches every path
under its directory; any other pattern matches only itself. -/
def globMatches (pat path : String) : Bool :=
  if ['/', '*', '*'].isSuffixOf pat.data then
    pat.data.dropLast.dropLast.isPrefixOf path.data
  else pat.data == path.data

/-- A delivered GitHub event, as far as the three trigger blocks inspect it. -/
inductive GhEvent where
  | pullRequest (action baseBranch : String) (changedPaths : List String)
  | push (branch : String) (changedPaths : List String)
deriving DecidableEq, Repr

/-- GitHub trigger semantics: a workflow runs on an event exactly when the
event kind matches its trigger, the action (for pull requests) and branch pass
the filters, and some changed path matches some path pattern. -/
def triggersOn (w : Workflow) (e : GhEvent) : Prop :=
  match w.trigger, e with
  | TriggerDef.pullRequest types branches paths,
    GhEvent.pullRequest act base changed =>
      act ∈ types ∧ base ∈ branches ∧
        ∃ p ∈ changed, ∃ pat ∈ paths, globMatches pat p = true
  | TriggerDef.push branches paths, GhEvent.push br changed =>
      br ∈ branches ∧ ∃ p ∈ changed, ∃ pat ∈ paths, globMatches pat p = true
  | _, _ => False

/-- `.github/workflows`, file `Validate PR on develop branch` (src/unnamed/part_000). -/
def validatePROnDevelop : Workflow where
  name := "Validate PR on develop branch"
  trigger := TriggerDef.pullRequest ["opened", "synchronize"] ["develop"]
    ["force-app/**"]
  steps := ["actions/setup-node@v3", "Checkout source code", "Read PR Body",
    "Install Salesforce CLI", "Installing sfdx git delta", "Installing java",
    "Installing SFDX scanner",
    "Populate auth file with SFDX_URL secret of integration org",
    "Authenticate to Integration Org",
    "Create delta packages for new, modified or deleted metadata",
    "Scan code", "Upload SARIF file",
    "Check-only deploy delta changes - run specified tests",
    "Check-only deploy delta changes - run all tests",
    "Display deployment results on failure",
    "Deploy destructive changes (if any)"]

/-- `.github/workflows/push-develop-branch.yml`. -/
def deployDevelopBranch : Workflow where
  name := "Deploy develop branch to integration org"
  trigger := TriggerDef.push ["develop"] ["force-app/**"]
  steps := ["actions/setup-node@v3", "Checkout source code",
    "Install Salesforce CLI", "Installing sfdx git delta",
    "Populate auth file with SFDX_URL secret of integration org",
    "Authenticate to Integration Org",
    "Create delta packages for new, modified or deleted metadata",
    "Deploy the entire branch to Integration org",
    "Display deployment results on failure",
    "Deploy destructive changes (if any) to Integration org"]

/-- `.github/workflows/push-main-branch.yml`. -/
def deployMainBranch : Workflow where
  name := "Deploy main branch to production org"
  trigger := TriggerDef.push ["main"] ["force-app/**"]
  steps := ["actions/setup-node@v3", "Checkout source code",
    "Install Salesforce CLI", "Installing sfdx git delta",
    "Populate auth file with SFDX_URL secret of the production org",
    "Authenticate to Production Org",
    "Create delta packages for new, modified or deleted metadata",
    "Deploy the entire branch to Production org",
    "Display deployment results on failure",
    "Deploy destructive changes (if any) to Production org"]

theorem globMatches_forceApp (p : String) :
    globMatches "force-app/**" p = ("force-app/".data).isPrefixOf p.data :=
  rfl

/-- C8: the PR-validation workflow triggers exactly on pull_request events of
type opened or synchronize against base branch develop with a changed path
under `force-app/`; the two deploy workflows trigger exactly on push to
develop and to main respectively with the same path filter; and each workflow
runs its fixed sequential step list. -/
theorem workflow_triggers (e : GhEvent) :
    (triggersOn validatePROnDevelop e ↔
        ∃ act base changed, e = GhEvent.pullRequest act base changed ∧
          (act = "opened" ∨ act = "synchronize") ∧ base = "develop" ∧
          ∃ p ∈ changed, ("force-app/".data).isPrefixOf p.data = true) ∧
      (triggersOn deployDevelopBranch e ↔
        ∃ changed, e = GhEvent.push "develop" changed ∧
          ∃ p ∈ changed, ("force-app/".data).isPrefixOf p.data = true) ∧
      (triggersOn deployMainBranch e ↔
        ∃ changed, e = GhEvent.push "main" changed ∧
          ∃ p ∈ changed, ("force-app/".data).isPrefixOf p.data = true) ∧
      validatePROnDevelop.steps.length = 16 ∧
      deployDevelopBranch.steps.length = 10 ∧
      deployMainBranch.steps.length = 10 := by
  refine ⟨?_, ?_, ?_, rfl, rfl, rfl⟩ <;> cases e <;>
    simp [triggersOn, validatePROnDevelop, deployDevelopBranch,
      deployMainBranch, globMatches_forceApp, List.mem_cons, and_assoc]

end HelloWorldRepo
